import Mathlib

/-!
Shallow embedding of `src/IoT_Device/src/main.cpp`: the navigation engine,
command protocol and telemetry assembly of the IoT device.  Machine floats
are modelled by exact rationals; the 32-bit unsigned timer arithmetic is
modelled by `Nat` with explicit wraparound; trigonometric and square-root
primitives are abstract function parameters (the claims do not depend on
their values).  Serial output is modelled as a list of effects.
-/

/-- The `List Char` view of a string literal (the Arduino `String` payload). -/
def strL (s : String) : List Char := s.data

/-- C `isspace` on the ASCII range, as used by Arduino `String::trim`. -/
def isSpaceC (c : Char) : Bool := c == ' ' || (9 ≤ c.toNat && c.toNat ≤ 13)

/-- Arduino `String::trim()`: drop leading and trailing `isspace` characters. -/
def trimL (s : List Char) : List Char :=
  ((s.dropWhile isSpaceC).reverse.dropWhile isSpaceC).reverse

/-- Arduino `String::startsWith(p)`. -/
def startsW (p s : List Char) : Bool := decide (s.take p.length = p)

/-- Arduino `String::indexOf(c)`: index of the first occurrence, `-1` if absent. -/
def firstIdx (c : Char) (s : List Char) : Int :=
  match s.findIdx? (· == c) with
  | some i => (i : Int)
  | none => -1

/-- Arduino `String::lastIndexOf(c)`: index of the last occurrence, `-1` if absent. -/
def lastIdx (c : Char) (s : List Char) : Int :=
  match s.reverse.findIdx? (· == c) with
  | some i => ((s.length - 1 - i : Nat) : Int)
  | none => -1

/-- Split a leading run of decimal digits from the rest. -/
def takeDigits (s : List Char) : List Char × List Char :=
  (s.takeWhile (·.isDigit), s.dropWhile (·.isDigit))

/-- Value of a digit string (most significant first). -/
def digitsToNat (ds : List Char) : Nat :=
  ds.foldl (fun a c => a * 10 + (c.toNat - 48)) 0

/-- The `sscanf` `%d` conversion: skip whitespace, optional sign, at least one
digit; returns the value and the unconsumed rest. -/
def scanInt (s : List Char) : Option (Int × List Char) :=
  let s1 := s.dropWhile isSpaceC
  let (sgn, s2) : Int × List Char :=
    match s1 with
    | '-' :: t => (-1, t)
    | '+' :: t => (1, t)
    | _ => (1, s1)
  let (ds, rest) := takeDigits s2
  if ds = [] then none
  else some (sgn * (digitsToNat ds : Int), rest)

/-- The test `sscanf(s, "RGB=%d,%d,%d", &r, &g, &b) == 3` from `handleCommand`
(main.cpp line 121): literal `RGB=`, then three `%d` fields separated by
literal commas; trailing input is ignored, exactly as `sscanf` ignores it. -/
def scanRGB (line : List Char) : Option (Int × Int × Int) :=
  if startsW (strL "RGB=") line then
    match scanInt (line.drop 4) with
    | some (r, rest1) =>
      match rest1 with
      | ',' :: rest2 =>
        match scanInt rest2 with
        | some (g, rest3) =>
          match rest3 with
          | ',' :: rest4 =>
            match scanInt rest4 with
            | some (b, _) => some (r, g, b)
            | none => none
          | _ => none
        | none => none
      | _ => none
    | none => none
  else none

/-- Structural power of ten over ℚ. -/
def pow10 : Nat → ℚ
  | 0 => 1
  | n + 1 => 10 * pow10 n

/-- Exponent part of a C float literal after `e`/`E`: optional sign and
digits; no digits means the exponent part is not matched (value 0). -/
def scanExp (s : List Char) : Int :=
  let (sgn, s1) : Int × List Char :=
    match s with
    | '-' :: t => (-1, t)
    | '+' :: t => (1, t)
    | _ => (1, s)
  let (ds, _) := takeDigits s1
  if ds = [] then 0 else sgn * (digitsToNat ds : Int)

/-- Arduino `String::toFloat` (C `atof`) on the decimal subset: leading
whitespace, optional sign, integer digits, optional fraction, optional
exponent; no digits at all converts to `0`. -/
def atofQ (s : List Char) : ℚ :=
  let s1 := s.dropWhile isSpaceC
  let (sgn, s2) : ℚ × List Char :=
    match s1 with
    | '-' :: t => (-1, t)
    | '+' :: t => (1, t)
    | _ => (1, s1)
  let (ip, s3) := takeDigits s2
  let (fp, s4) :=
    match s3 with
    | '.' :: t => takeDigits t
    | _ => (([] : List Char), s3)
  if ip = [] ∧ fp = [] then 0
  else
    let mant : ℚ := (digitsToNat ip : ℚ) + (digitsToNat fp : ℚ) / pow10 fp.length
    let ex : Int :=
      match s4 with
      | 'e' :: t => scanExp t
      | 'E' :: t => scanExp t
      | _ => 0
    let scale : ℚ := if 0 ≤ ex then pow10 ex.toNat else 1 / pow10 (-ex).toNat
    sgn * mant * scale

/-- Arduino `constrain(a, lo, hi)` macro. -/
def constrain (a lo hi : Int) : Int :=
  if a < lo then lo else if a > hi then hi else a

/-- Arduino `abs` macro: `(x)>0?(x):-(x)`. -/
def absC (x : ℚ) : ℚ := if x > 0 then x else -x

/-- Unsigned 32-bit subtraction `a - b` (the `unsigned long` arithmetic of
`micros()`/`millis()` differences). -/
def u32sub (a b : Nat) : Nat := (a % 2 ^ 32 + 2 ^ 32 - b % 2 ^ 32) % 2 ^ 32

-- Configurable constants (main.cpp lines 6-10)
def SPEED : ℚ := 1
def REPORT_INTERVAL : Nat := 1000
def GYRO_DEADBAND : ℚ := 0.05
def TARGET_THRESHOLD : ℚ := 1
def LED_ON_DURATION : Nat := 10000

/-- Arduino `PI` macro, as an exact rational. -/
def piQ : ℚ := 3.1415926535897932384626433832795

/-- The global mutable state of main.cpp (lines 18-31): position,
orientation, integration timer, target tracking, and the command buffer. -/
structure DeviceState where
  pos_x : ℚ
  pos_y : ℚ
  pos_z : ℚ
  yaw : ℚ
  pitch : ℚ
  lastGyroUpdate : Nat
  hasTarget : Bool
  target_x : ℚ
  target_y : ℚ
  target_z : ℚ
  targetReached : Bool
  targetReachedTime : Nat
  firstCall : Bool
  cmd : List Char
  deriving Repr, DecidableEq

/-- Boot-time values of the globals (main.cpp lines 18-31). -/
def initState : DeviceState :=
  { pos_x := 0, pos_y := 0, pos_z := 0, yaw := 0, pitch := 0
    lastGyroUpdate := 0, hasTarget := false
    target_x := 0, target_y := 0, target_z := 0
    targetReached := false, targetReachedTime := 0
    firstCall := true, cmd := [] }

/-- Observable side effects of the core: serial protocol lines (with their
payloads) and indicator writes.  `setRgbOut r g b` records the arguments
passed to `setRgb` — the active-low PWM inversion inside `setRgb` belongs to
the excluded GPIO layer. -/
inductive Effect where
  | digitalWriteLed (high : Bool)
  | setRgbOut (r g b : Int)
  | ackLedOn
  | ackLedOff
  | ackRgb (r g b : Int)
  | errBadRgb (line : List Char)
  | ackTargetSet (x y z : ℚ)
  | errBadGoto (line : List Char)
  | errUnknownCmd (line : List Char)
  | errCmdTooLong
  | ackTargetReached
  | ackTargetComplete
  deriving Repr, DecidableEq

/-- The function `distanceToTarget()` (main.cpp lines 43-48), with `sqrt` abstract. -/
def distanceToTarget (sqrtQ : ℚ → ℚ) (s : DeviceState) : ℚ :=
  let dx := s.target_x - s.pos_x
  let dy := s.target_y - s.pos_y
  let dz := s.target_z - s.pos_z
  sqrtQ (dx * dx + dy * dy + dz * dz)

/-- The function `updatePosition()` (main.cpp lines 51-105).  `now_us` is `micros()`,
`now_ms` is `millis()` (read only when the target is reached), `gyro` is
`some (gx, gy, gz)` when `IMU.gyroscopeAvailable()` and the sample read,
`none` otherwise.  `sinQ`/`cosQ`/`sqrtQ` abstract the trigonometric and
square-root primitives. -/
def updatePosition (sinQ cosQ sqrtQ : ℚ → ℚ) (s : DeviceState)
    (now_us now_ms : Nat) (gyro : Option (ℚ × ℚ × ℚ)) :
    DeviceState × List Effect :=
  if !s.hasTarget || s.targetReached then (s, [])
  else if s.firstCall then
    ({ s with lastGyroUpdate := now_us % 2 ^ 32, firstCall := false }, [])
  else
    match gyro with
    | none => (s, [])
    | some (_, gy, gz) =>
      let dt : ℚ := (u32sub now_us s.lastGyroUpdate : ℚ) / 1000000
      let gyroZ_rad := gz * (piQ / 180)
      let gyroY_rad := gy * (piQ / 180)
      let yaw' := if absC gyroZ_rad > GYRO_DEADBAND then s.yaw + gyroZ_rad * dt else s.yaw
      let pitch' := if absC gyroY_rad > GYRO_DEADBAND then s.pitch + gyroY_rad * dt else s.pitch
      let dist_z := SPEED * dt * sinQ pitch'
      let dist_horizontal := SPEED * dt * cosQ pitch'
      let dist_x := dist_horizontal * cosQ yaw'
      let dist_y := dist_horizontal * sinQ yaw'
      let s2 := { s with
        lastGyroUpdate := now_us % 2 ^ 32
        yaw := yaw', pitch := pitch'
        pos_x := s.pos_x + dist_x
        pos_y := s.pos_y + dist_y
        pos_z := s.pos_z + dist_z }
      if s2.hasTarget && !s2.targetReached then
        if distanceToTarget sqrtQ s2 ≤ TARGET_THRESHOLD then
          ({ s2 with targetReached := true, targetReachedTime := now_ms % 2 ^ 32 },
           [Effect.setRgbOut 255 0 0, Effect.ackTargetReached])
        else (s2, [])
      else (s2, [])

/-- The function `handleCommand(s)` (main.cpp lines 107-166). -/
def handleCommand (s : DeviceState) (line : List Char) : DeviceState × List Effect :=
  if line = strL "LED=ON" then (s, [Effect.digitalWriteLed true, Effect.ackLedOn])
  else if line = strL "LED=OFF" then (s, [Effect.digitalWriteLed false, Effect.ackLedOff])
  else if startsW (strL "RGB=") line then
    match scanRGB line with
    | some (r, g, b) =>
      let r := constrain r 0 255
      let g := constrain g 0 255
      let b := constrain b 0 255
      (s, [Effect.setRgbOut r g b, Effect.ackRgb r g b])
    | none => (s, [Effect.errBadRgb line])
  else if startsW (strL "GOTO=") line then
    let coords := line.drop 5
    let comma1 := firstIdx ',' coords
    let comma2 := lastIdx ',' coords
    if comma1 > 0 ∧ comma2 > comma1 then
      let x := atofQ (coords.take comma1.toNat)
      let y := atofQ ((coords.take comma2.toNat).drop (comma1.toNat + 1))
      let z := atofQ (coords.drop (comma2.toNat + 1))
      ({ s with target_x := x, target_y := y, target_z := z
                hasTarget := true, targetReached := false },
       [Effect.ackTargetSet x y z])
    else (s, [Effect.errBadGoto line])
  else (s, [Effect.errUnknownCmd line])

/-- One iteration of the serial-drain loop body (main.cpp lines 213-225):
process one inbound byte against the command buffer, appending any emitted
effects. -/
def serialStep (acc : DeviceState × List Effect) (c : Char) : DeviceState × List Effect :=
  let (s, es) := acc
  if c = '\n' ∨ c = '\r' then
    if s.cmd.length > 0 then
      let line := trimL s.cmd
      let (s', es') := handleCommand s line
      ({ s' with cmd := [] }, es ++ es')
    else (s, es)
  else
    let cmd' := s.cmd ++ [c]
    if cmd'.length > 96 then ({ s with cmd := [] }, es ++ [Effect.errCmdTooLong])
    else ({ s with cmd := cmd' }, es)

/-- The serial-drain loop (main.cpp lines 213-225): consume every buffered
inbound byte in order. -/
def drainSerial (s : DeviceState) (input : List Char) : DeviceState × List Effect :=
  input.foldl serialStep (s, [])

/-- The reached-target hold window of `loop()` (main.cpp lines 201-210):
while reached, re-arm `firstCall` every tick; once
`now - targetReachedTime >= LED_ON_DURATION`, clear the indicator, clear the
target and emit the completion acknowledgement. -/
def checkTargetCompletion (s : DeviceState) (now_ms : Nat) : DeviceState × List Effect :=
  if s.targetReached then
    let s1 := { s with firstCall := true }
    if u32sub now_ms s.targetReachedTime ≥ LED_ON_DURATION then
      ({ s1 with targetReached := false, hasTarget := false },
       [Effect.setRgbOut 0 0 0, Effect.ackTargetComplete])
    else (s1, [])
  else (s, [])

/-- The telemetry record assembled by `loop()` (main.cpp lines 233-254):
`distance_to_target` is an optional field, not a sentinel. -/
structure Telemetry where
  timestamp : Nat
  temp_c : ℚ
  humidity_rh : ℚ
  pos_x : ℚ
  pos_y : ℚ
  pos_z : ℚ
  distance_to_target : Option ℚ
  deriving Repr, DecidableEq

/-- Telemetry assembly (main.cpp lines 233-254): the record built from the
current state, with `distance_to_target` included exactly when
`hasTarget && !targetReached`. -/
def buildTelemetry (sqrtQ : ℚ → ℚ) (s : DeviceState) (now_ms : Nat)
    (temp hum : ℚ) : Telemetry :=
  { timestamp := now_ms % 2 ^ 32
    temp_c := temp
    humidity_rh := hum
    pos_x := s.pos_x, pos_y := s.pos_y, pos_z := s.pos_z
    distance_to_target :=
      if s.hasTarget && !s.targetReached then some (distanceToTarget sqrtQ s)
      else none }

/-- C8: in every assembled telemetry record, the `distance_to_target` field
is present if and only if the state is Navigating (target present and not
yet reached); when Idle or Reached it is omitted rather than emitted with a
sentinel value. -/
theorem telemetry_distance_iff_navigating (sqrtQ : ℚ → ℚ) (s : DeviceState)
    (now_ms : Nat) (temp hum : ℚ) :
    (buildTelemetry sqrtQ s now_ms temp hum).distance_to_target.isSome = true ↔
      (s.hasTarget = true ∧ s.targetReached = false) := by
  cases h1 : s.hasTarget <;> cases h2 : s.targetReached <;>
    simp [buildTelemetry, h1, h2]

/-- C4: while Reached, the unit stays in Reached (only re-arming the
integrator anchor flag) until `now - targetReachedTime ≥ LED_ON_DURATION`
(comparison is elapsed ≥ threshold); at that point the indicator is cleared,
the target is cleared, the state returns to Idle and `ACK=TARGET_COMPLETE`
is emitted — exactly once per reach, since the completion step clears
`targetReached` and the block is a no-op once it is clear. -/
theorem reached_hold_completion (s : DeviceState) (now_ms : Nat) :
    (s.targetReached = true → LED_ON_DURATION ≤ u32sub now_ms s.targetReachedTime →
      checkTargetCompletion s now_ms =
        ({ s with firstCall := true, targetReached := false, hasTarget := false },
         [Effect.setRgbOut 0 0 0, Effect.ackTargetComplete])) ∧
    (s.targetReached = true → u32sub now_ms s.targetReachedTime < LED_ON_DURATION →
      checkTargetCompletion s now_ms = ({ s with firstCall := true }, [])) ∧
    (s.targetReached = false → checkTargetCompletion s now_ms = (s, [])) := by
  refine ⟨fun hR hold => ?_, fun hR hold => ?_, fun hR => ?_⟩
  · simp [checkTargetCompletion, hR, hold]
  · simp [checkTargetCompletion, hR, Nat.not_le_of_lt hold]
  · simp [checkTargetCompletion, hR]

/-- Witness for C4: a concrete reached state completes exactly at the
10000 ms boundary. -/
theorem reached_hold_completion_witness :
    checkTargetCompletion
        { initState with targetReached := true, targetReachedTime := 0 } 10000 =
      ({ initState with firstCall := true, targetReached := false, hasTarget := false },
       [Effect.setRgbOut 0 0 0, Effect.ackTargetComplete]) :=
  (reached_hold_completion
      { initState with targetReached := true, targetReachedTime := 0 } 10000).1
    rfl (by decide)

/-- Case shape of one `updatePosition` step: either no effect is emitted,
or the arrival pair is emitted, the pre-state was Navigating, and the
post-state is Reached. -/
lemma updatePosition_shape (sinQ cosQ sqrtQ : ℚ → ℚ) (s : DeviceState)
    (now_us now_ms : Nat) (gyro : Option (ℚ × ℚ × ℚ)) :
    (updatePosition sinQ cosQ sqrtQ s now_us now_ms gyro).2 = [] ∨
    ((updatePosition sinQ cosQ sqrtQ s now_us now_ms gyro).2 =
        [Effect.setRgbOut 255 0 0, Effect.ackTargetReached] ∧
      s.hasTarget = true ∧ s.targetReached = false ∧
      (updatePosition sinQ cosQ sqrtQ s now_us now_ms gyro).1.targetReached = true) := by
  unfold updatePosition
  split
  · exact Or.inl rfl
  next hcond =>
    have hH : s.hasTarget = true ∧ s.targetReached = false := by
      rcases Bool.eq_false_or_eq_true s.hasTarget with h1 | h1 <;>
        rcases Bool.eq_false_or_eq_true s.targetReached with h2 | h2 <;>
          simp [h1, h2] at hcond ⊢
    split
    · exact Or.inl rfl
    · split
      · exact Or.inl rfl
      · simp +zeta only []
        repeat' split
        all_goals first
          | exact Or.inl rfl
          | exact Or.inr ⟨rfl, hH.1, hH.2, rfl⟩

/-- C3: the arrival signal is produced at most once per target: the distance
computation and threshold check run only while Navigating — `updatePosition`
is an exact no-op when the target is already Reached (or absent), and
whenever it emits `ACK=TARGET_REACHED` the pre-state was Navigating and the
post-state is Reached. -/
theorem arrival_only_while_navigating (sinQ cosQ sqrtQ : ℚ → ℚ)
    (s : DeviceState) (now_us now_ms : Nat) (gyro : Option (ℚ × ℚ × ℚ)) :
    (s.targetReached = true →
      updatePosition sinQ cosQ sqrtQ s now_us now_ms gyro = (s, [])) ∧
    (s.hasTarget = false →
      updatePosition sinQ cosQ sqrtQ s now_us now_ms gyro = (s, [])) ∧
    (Effect.ackTargetReached ∈ (updatePosition sinQ cosQ sqrtQ s now_us now_ms gyro).2 →
      s.hasTarget = true ∧ s.targetReached = false ∧
        (updatePosition sinQ cosQ sqrtQ s now_us now_ms gyro).1.targetReached = true) := by
  refine ⟨fun hR => ?_, fun hT => ?_, fun hmem => ?_⟩
  · simp [updatePosition, hR]
  · simp [updatePosition, hT]
  · rcases updatePosition_shape sinQ cosQ sqrtQ s now_us now_ms gyro with h | h
    · rw [h] at hmem
      simp at hmem
    · exact ⟨h.2.1, h.2.2.1, h.2.2.2⟩

/-- Witness for C3: with a reached target, `updatePosition` is a no-op. -/
theorem arrival_only_while_navigating_witness :
    updatePosition id id id { initState with hasTarget := true, targetReached := true }
        5 6 none =
      ({ initState with hasTarget := true, targetReached := true }, []) :=
  (arrival_only_while_navigating id id id
      { initState with hasTarget := true, targetReached := true } 5 6 none).1 rfl

/-- C5: an angular-rate sample whose converted magnitude is below the
deadband (0.05 rad/s) leaves the corresponding orientation component
unchanged by that integration step — yaw for the z axis, pitch for the
y axis. -/
theorem gyro_deadband_suppresses_orientation (sinQ cosQ sqrtQ : ℚ → ℚ)
    (s : DeviceState) (now_us now_ms : Nat) (gx gy gz : ℚ) :
    (absC (gz * (piQ / 180)) < GYRO_DEADBAND →
      (updatePosition sinQ cosQ sqrtQ s now_us now_ms (some (gx, gy, gz))).1.yaw = s.yaw) ∧
    (absC (gy * (piQ / 180)) < GYRO_DEADBAND →
      (updatePosition sinQ cosQ sqrtQ s now_us now_ms (some (gx, gy, gz))).1.pitch = s.pitch) := by
  constructor
  · intro h
    have hnot : ¬ (GYRO_DEADBAND < absC (gz * (piQ / 180))) := lt_asymm h
    unfold updatePosition
    split
    · rfl
    · split
      · rfl
      · simp +zeta only [if_neg hnot]
        repeat' split
        all_goals rfl
  · intro h
    have hnot : ¬ (GYRO_DEADBAND < absC (gy * (piQ / 180))) := lt_asymm h
    unfold updatePosition
    split
    · rfl
    · split
      · rfl
      · simp +zeta only [if_neg hnot]
        repeat' split
        all_goals rfl

/-- Witness for C5: a zero-rate sample is below the deadband and leaves yaw
unchanged while navigating. -/
theorem gyro_deadband_suppresses_orientation_witness :
    absC ((0 : ℚ) * (piQ / 180)) < GYRO_DEADBAND ∧
      (updatePosition id id id
          { initState with hasTarget := true, firstCall := false }
          1000000 0 (some (0, 0, 0))).1.yaw =
        ({ initState with hasTarget := true, firstCall := false } : DeviceState).yaw := by
  have h : absC ((0 : ℚ) * (piQ / 180)) < GYRO_DEADBAND := by
    norm_num [absC, GYRO_DEADBAND]
  exact ⟨h,
    (gyro_deadband_suppresses_orientation id id id
        { initState with hasTarget := true, firstCall := false } 1000000 0 0 0 0).1 h⟩

/-- Accumulating non-terminator bytes within the 96-character capacity
appends them to the buffer and emits nothing. -/
lemma drain_accumulate (cs : List Char) (s : DeviceState) (es : List Effect)
    (hnt : ∀ c ∈ cs, ¬(c = '\n' ∨ c = '\r'))
    (hlen : s.cmd.length + cs.length ≤ 96) :
    cs.foldl serialStep (s, es) = ({ s with cmd := s.cmd ++ cs }, es) := by
  induction cs generalizing s es with
  | nil => simp
  | cons c cs ih =>
    have hc : ¬(c = '\n' ∨ c = '\r') := hnt c (List.mem_cons_self c cs)
    have hlc : (c :: cs).length = cs.length + 1 := List.length_cons c cs
    have hl1 : (s.cmd ++ [c]).length = s.cmd.length + 1 := by simp
    have hlen1 : ¬ (s.cmd ++ [c]).length > 96 := by omega
    have hstep : serialStep (s, es) c = ({ s with cmd := s.cmd ++ [c] }, es) := by
      simp +zeta only [serialStep, if_neg hc, if_neg hlen1]
    have hl2 : ({ s with cmd := s.cmd ++ [c] } : DeviceState).cmd.length = s.cmd.length + 1 := hl1
    rw [List.foldl_cons, hstep,
      ih _ es (fun x hx => hnt x (List.mem_cons_of_mem c hx)) (by omega)]
    simp [List.append_assoc]

/-- Counterexample to C1 as stated: a 98-character line followed by a
terminator emits `ERR=CMD_TOO_LONG` at the 97th character, but the 98th
character survives in the (cleared) buffer and is then dispatched as a
command of its own — part of the offending line is dispatched. -/
theorem cmd_too_long_residue_cex :
    (drainSerial initState (List.replicate 97 'A' ++ ['B', '\n'])).2 =
        [Effect.errCmdTooLong, Effect.errUnknownCmd ['B']] ∧
      Effect.errUnknownCmd ['B'] ∈
        (drainSerial initState (List.replicate 97 'A' ++ ['B', '\n'])).2 := by
  constructor <;> decide

/-- C1 (amended): when the buffer reaches 97 characters before any
terminator it is discarded at that point, and exactly one
`ERR=CMD_TOO_LONG` is emitted; for a line of exactly 97 non-terminator
characters the buffer is empty afterward and no part of the line is ever
dispatched (longer lines keep accumulating their residue, which is
dispatched at the terminator — see the counterexample). -/
theorem cmd_too_long_exact_line (s : DeviceState) (cs : List Char)
    (hbuf : s.cmd = []) (hlen : cs.length = 97)
    (hnt : ∀ c ∈ cs, ¬(c = '\n' ∨ c = '\r')) :
    drainSerial s (cs ++ ['\n']) = (s, [Effect.errCmdTooLong]) := by
  have hs : ({ s with cmd := ([] : List Char) } : DeviceState) = s := by
    rw [← hbuf]
  obtain ⟨c, hc⟩ : ∃ c, cs.drop 96 = [c] := by
    apply List.length_eq_one.mp
    rw [List.length_drop, hlen]
  have hsplit : cs = cs.take 96 ++ [c] := by
    conv_lhs => rw [← List.take_append_drop 96 cs, hc]
  have h96 : (cs.take 96).length = 96 := by
    rw [List.length_take, hlen]
    rfl
  have h0 : s.cmd.length = 0 := by rw [hbuf]; rfl
  have hcm : c ∈ cs := by
    rw [hsplit]
    exact List.mem_append_right _ (List.mem_singleton.mpr rfl)
  have hacc : (cs.take 96).foldl serialStep (s, []) =
      ({ s with cmd := s.cmd ++ cs.take 96 }, []) :=
    drain_accumulate _ s []
      (fun x hx => hnt x (by rw [hsplit]; exact List.mem_append_left _ hx))
      (by rw [h0, h96])
  have hover : (s.cmd ++ cs.take 96 ++ [c]).length > 96 := by
    rw [List.length_append, List.length_append, h0, h96]
    have h1 : [c].length = 1 := rfl
    omega
  have hstep1 : serialStep ({ s with cmd := s.cmd ++ cs.take 96 }, []) c =
      ({ s with cmd := [] }, [Effect.errCmdTooLong]) := by
    simp +zeta only [serialStep, if_neg (hnt c hcm), if_pos hover,
      List.nil_append]
  have hstep2 : serialStep ({ s with cmd := ([] : List Char) }, [Effect.errCmdTooLong]) '\n' =
      ({ s with cmd := [] }, [Effect.errCmdTooLong]) := by
    simp +zeta [serialStep]
  calc drainSerial s (cs ++ ['\n'])
      = (cs.take 96 ++ ([c] ++ ['\n'])).foldl serialStep (s, []) := by
        rw [drainSerial]
        conv_lhs => rw [hsplit]
        rw [List.append_assoc]
    _ = ([c] ++ ['\n']).foldl serialStep ({ s with cmd := s.cmd ++ cs.take 96 }, []) := by
        rw [List.foldl_append, hacc]
    _ = (s, [Effect.errCmdTooLong]) := by
        rw [List.singleton_append, List.foldl_cons, hstep1, List.foldl_cons,
          hstep2, List.foldl_nil, hs]

/-- Witness for C1 (amended): a concrete 97-character line. -/
theorem cmd_too_long_exact_line_witness :
    drainSerial initState (List.replicate 97 'A' ++ ['\n']) =
      (initState, [Effect.errCmdTooLong]) :=
  cmd_too_long_exact_line initState (List.replicate 97 'A') rfl (by simp)
    (by intro c hc; rw [List.eq_of_mem_replicate hc]; decide)

/-- Trimming a string made only of whitespace yields the empty string. -/
lemma trimL_eq_nil (cs : List Char) (h : ∀ c ∈ cs, isSpaceC c = true) :
    trimL cs = [] := by
  unfold trimL
  rw [List.dropWhile_eq_nil_iff.mpr h]
  rfl

/-- Dispatching `handleCommand` on the empty line matches no command and echoes the
empty value. -/
lemma handleCommand_nil (s : DeviceState) :
    handleCommand s [] = (s, [Effect.errUnknownCmd []]) := rfl

/-- Counterexample to C9 as stated: a line of 97 whitespace bytes (at least
one byte, only whitespace) is not dispatched at all — the overflow branch
discards it first and emits `ERR=CMD_TOO_LONG`, never `ERR=UNKNOWN_CMD`. -/
theorem whitespace_overflow_cex :
    (drainSerial initState (List.replicate 97 ' ' ++ ['\n'])).2 =
        [Effect.errCmdTooLong] ∧
      Effect.errUnknownCmd [] ∉
        (drainSerial initState (List.replicate 97 ' ' ++ ['\n'])).2 := by
  constructor <;> decide

/-- C9 (amended): an inbound line of 1 to 96 bytes consisting only of
whitespace is dispatched rather than ignored — after trimming it becomes
empty, matches no command, and yields `ERR=UNKNOWN_CMD,VAL=` with an empty
echoed value; a line with zero bytes between terminators is a no-op.  A
whitespace-only line of exactly 97 bytes is discarded by the overflow
branch and is not dispatched at all (see the counterexample), while at 98
to 193 bytes the post-overflow residue re-accumulates, trims to empty, and
is dispatched after all: `ERR=CMD_TOO_LONG` followed by
`ERR=UNKNOWN_CMD,VAL=`. -/
theorem whitespace_line_dispatched (s : DeviceState) (cs : List Char)
    (hbuf : s.cmd = [])
    (hws : ∀ c ∈ cs, isSpaceC c = true ∧ ¬(c = '\n' ∨ c = '\r')) :
    (cs ≠ [] → cs.length ≤ 96 →
      drainSerial s (cs ++ ['\n']) = (s, [Effect.errUnknownCmd []])) ∧
    drainSerial s ['\n'] = (s, []) ∧
    (97 < cs.length → cs.length ≤ 193 →
      drainSerial s (cs ++ ['\n']) =
        (s, [Effect.errCmdTooLong, Effect.errUnknownCmd []])) := by
  have hs : ({ s with cmd := ([] : List Char) } : DeviceState) = s := by
    rw [← hbuf]
  have h0 : s.cmd.length = 0 := by rw [hbuf]; rfl
  refine ⟨fun hne hlen => ?_, ?_, fun hgt hle => ?_⟩
  · have hacc : cs.foldl serialStep (s, []) = ({ s with cmd := s.cmd ++ cs }, []) :=
      drain_accumulate cs s [] (fun c hc => (hws c hc).2) (by omega)
    have hlen0 : (s.cmd ++ cs).length > 0 := by
      rw [hbuf, List.nil_append]
      exact List.length_pos.mpr hne
    have htrim : trimL (s.cmd ++ cs) = [] := by
      apply trimL_eq_nil
      intro c hc
      rw [hbuf, List.nil_append] at hc
      exact (hws c hc).1
    have hstep : serialStep ({ s with cmd := s.cmd ++ cs }, []) '\n' =
        ({ s with cmd := [] }, [Effect.errUnknownCmd []]) := by
      simp +zeta +decide [serialStep, htrim, handleCommand_nil, hlen0]
      exact fun _ => hne
    rw [drainSerial, List.foldl_append, hacc, List.foldl_cons, hstep,
      List.foldl_nil, hs]
  · rw [drainSerial, List.foldl_cons, List.foldl_nil]
    simp +zeta +decide [serialStep, hbuf]
  · obtain ⟨c, t, hct⟩ : ∃ c t, cs.drop 96 = c :: t := by
      cases h : cs.drop 96 with
      | nil =>
        have h1 : (cs.drop 96).length = cs.length - 96 := List.length_drop 96 cs
        rw [h] at h1
        simp at h1
        omega
      | cons c t => exact ⟨c, t, rfl⟩
    have hsub : ∀ x ∈ (c :: t), x ∈ cs := by
      intro x hx
      rw [← hct] at hx
      exact List.drop_subset 96 cs hx
    have htlen : t.length = cs.length - 97 := by
      have h1 : (cs.drop 96).length = cs.length - 96 := List.length_drop 96 cs
      rw [hct, List.length_cons] at h1
      omega
    have h96 : (cs.take 96).length = 96 := by
      rw [List.length_take]
      omega
    have hsplit : cs = cs.take 96 ++ c :: t := by
      conv_lhs => rw [← List.take_append_drop 96 cs, hct]
    have hacc1 : (cs.take 96).foldl serialStep (s, []) =
        ({ s with cmd := s.cmd ++ cs.take 96 }, []) :=
      drain_accumulate _ s []
        (fun x hx => (hws x (by rw [hsplit]; exact List.mem_append_left _ hx)).2)
        (by omega)
    have hcm : c ∈ cs := hsub c (List.mem_cons_self c t)
    have hover : (s.cmd ++ cs.take 96 ++ [c]).length > 96 := by
      rw [List.length_append, List.length_append, h0, h96]
      have h1 : [c].length = 1 := rfl
      omega
    have hstep1 : serialStep ({ s with cmd := s.cmd ++ cs.take 96 }, []) c =
        ({ s with cmd := [] }, [Effect.errCmdTooLong]) := by
      simp +zeta only [serialStep, if_neg (hws c hcm).2, if_pos hover,
        List.nil_append]
    have hacc2 : t.foldl serialStep
        ({ s with cmd := ([] : List Char) }, [Effect.errCmdTooLong]) =
        ({ s with cmd := ([] : List Char) ++ t }, [Effect.errCmdTooLong]) :=
      drain_accumulate t { s with cmd := ([] : List Char) } [Effect.errCmdTooLong]
        (fun x hx => (hws x (hsub x (List.mem_cons_of_mem c hx))).2)
        (by simp; omega)
    have hne2 : t.length > 0 := by omega
    have hlen2 : 0 < t.length := hne2
    have htrim2 : trimL t = [] := by
      apply trimL_eq_nil
      intro x hx
      exact (hws x (hsub x (List.mem_cons_of_mem c hx))).1
    have hne2l : t ≠ [] := List.length_pos.mp hne2
    have hstep2 : serialStep ({ s with cmd := ([] : List Char) ++ t },
        [Effect.errCmdTooLong]) '\n' =
        ({ s with cmd := [] }, [Effect.errCmdTooLong, Effect.errUnknownCmd []]) := by
      simp +zeta +decide [serialStep, htrim2, handleCommand_nil, hlen2, hne2l]
    calc drainSerial s (cs ++ ['\n'])
        = ((cs.take 96 ++ c :: t) ++ ['\n']).foldl serialStep (s, []) := by
          rw [drainSerial]
          conv_lhs => rw [hsplit]
      _ = (cs.take 96 ++ (c :: (t ++ ['\n']))).foldl serialStep (s, []) := by
          rw [List.append_assoc, List.cons_append]
      _ = (c :: (t ++ ['\n'])).foldl serialStep
            ({ s with cmd := s.cmd ++ cs.take 96 }, []) := by
          rw [List.foldl_append, hacc1]
      _ = (t ++ ['\n']).foldl serialStep
            ({ s with cmd := [] }, [Effect.errCmdTooLong]) := by
          rw [List.foldl_cons, hstep1]
      _ = ['\n'].foldl serialStep
            ({ s with cmd := ([] : List Char) ++ t }, [Effect.errCmdTooLong]) := by
          rw [List.foldl_append, hacc2]
      _ = (s, [Effect.errCmdTooLong, Effect.errUnknownCmd []]) := by
          rw [List.foldl_cons, hstep2, List.foldl_nil, hs]

/-- Witness for C9 (amended): a single-space line is dispatched as the empty
command, a bare terminator is a no-op, and a 150-space line overflows and
then dispatches its trimmed-empty residue. -/
theorem whitespace_line_dispatched_witness :
    drainSerial initState [' ', '\n'] = (initState, [Effect.errUnknownCmd []]) ∧
      drainSerial initState ['\n'] = (initState, []) ∧
      drainSerial initState (List.replicate 150 ' ' ++ ['\n']) =
        (initState, [Effect.errCmdTooLong, Effect.errUnknownCmd []]) := by
  have h1 := whitespace_line_dispatched initState [' '] rfl (by decide)
  have h2 := whitespace_line_dispatched initState (List.replicate 150 ' ') rfl
    (by intro c hc; rw [List.eq_of_mem_replicate hc]; decide)
  exact ⟨h1.1 (by decide) (by decide), h1.2.1, h2.2.2 (by simp) (by simp)⟩

/-- A line starting with `GOTO=` matches none of the other command forms. -/
lemma goto_prefix_facts (line : List Char)
    (h : startsW (strL "GOTO=") line = true) :
    line ≠ strL "LED=ON" ∧ line ≠ strL "LED=OFF" ∧
      startsW (strL "RGB=") line = false := by
  have htake : line.take 5 = strL "GOTO=" := of_decide_eq_true h
  have h4 : line.take 4 = (strL "GOTO=").take 4 := by
    rw [← htake, List.take_take]
    norm_num
  refine ⟨?_, ?_, ?_⟩
  · intro he
    rw [he] at htake
    exact absurd htake (by decide)
  · intro he
    rw [he] at htake
    exact absurd htake (by decide)
  · apply decide_eq_false
    intro hcon
    have : (strL "GOTO=").take 4 = strL "RGB=" := by rw [← h4]; exact hcon
    exact absurd this (by decide)

/-- Running `handleCommand` on an accepted `GOTO=` line: both commas located, the
three segments converted with `toFloat` and stored, reached flag cleared,
`ACK=TARGET_SET` emitted. -/
lemma handleCommand_goto_accept (s : DeviceState) (line : List Char)
    (hpre : startsW (strL "GOTO=") line = true)
    (h1 : firstIdx ',' (line.drop 5) > 0)
    (h2 : lastIdx ',' (line.drop 5) > firstIdx ',' (line.drop 5)) :
    handleCommand s line =
      ({ s with
          target_x := atofQ ((line.drop 5).take (firstIdx ',' (line.drop 5)).toNat)
          target_y := atofQ (((line.drop 5).take (lastIdx ',' (line.drop 5)).toNat).drop
            ((firstIdx ',' (line.drop 5)).toNat + 1))
          target_z := atofQ ((line.drop 5).drop ((lastIdx ',' (line.drop 5)).toNat + 1))
          hasTarget := true, targetReached := false },
       [Effect.ackTargetSet
          (atofQ ((line.drop 5).take (firstIdx ',' (line.drop 5)).toNat))
          (atofQ (((line.drop 5).take (lastIdx ',' (line.drop 5)).toNat).drop
            ((firstIdx ',' (line.drop 5)).toNat + 1)))
          (atofQ ((line.drop 5).drop ((lastIdx ',' (line.drop 5)).toNat + 1)))]) := by
  obtain ⟨hne1, hne2, hrgb⟩ := goto_prefix_facts line hpre
  simp +zeta only [handleCommand, if_neg hne1, if_neg hne2, hrgb, hpre,
    Bool.false_eq_true, if_false, if_true, if_pos (And.intro h1 h2)]

/-- Running `handleCommand` on a malformed `GOTO=` line: the split fails, the state
is untouched and `ERR=BAD_GOTO` echoes the line. -/
lemma handleCommand_goto_reject (s : DeviceState) (line : List Char)
    (hpre : startsW (strL "GOTO=") line = true)
    (hbad : ¬(firstIdx ',' (line.drop 5) > 0 ∧
      lastIdx ',' (line.drop 5) > firstIdx ',' (line.drop 5))) :
    handleCommand s line = (s, [Effect.errBadGoto line]) := by
  obtain ⟨hne1, hne2, hrgb⟩ := goto_prefix_facts line hpre
  simp +zeta only [handleCommand, if_neg hne1, if_neg hne2, hrgb, hpre,
    Bool.false_eq_true, if_false, if_true, if_neg hbad]

/-- C7: a `GOTO` line whose coordinate substring cannot be split on two
commas (e.g. `GOTO=abc`, which has none) yields exactly one
`ERR=BAD_GOTO,VAL=<original line>` and leaves the whole state — target
coordinates, presence flag, reached flag — unchanged. -/
theorem bad_goto_unchanged (s : DeviceState) (line : List Char)
    (hpre : startsW (strL "GOTO=") line = true)
    (hbad : ¬(firstIdx ',' (line.drop 5) > 0 ∧
      lastIdx ',' (line.drop 5) > firstIdx ',' (line.drop 5))) :
    handleCommand s line = (s, [Effect.errBadGoto line]) ∧
      (handleCommand s line).1.target_x = s.target_x ∧
      (handleCommand s line).1.hasTarget = s.hasTarget ∧
      (handleCommand s line).1.targetReached = s.targetReached := by
  have h := handleCommand_goto_reject s line hpre hbad
  exact ⟨h, by rw [h], by rw [h], by rw [h]⟩

/-- Witness for C7: `GOTO=abc` against a concrete state. -/
theorem bad_goto_unchanged_witness :
    handleCommand initState (strL "GOTO=abc") =
      (initState, [Effect.errBadGoto (strL "GOTO=abc")]) :=
  (bad_goto_unchanged initState (strL "GOTO=abc") (by decide) (by decide)).1

/-- A line that `scanRGB` accepts starts with `RGB=` and matches neither
LED command. -/
lemma rgb_prefix_facts (line : List Char) (t : Int × Int × Int)
    (h : scanRGB line = some t) :
    line ≠ strL "LED=ON" ∧ line ≠ strL "LED=OFF" ∧
      startsW (strL "RGB=") line = true := by
  have hpre : startsW (strL "RGB=") line = true := by
    cases hb : startsW (strL "RGB=") line
    · unfold scanRGB at h
      rw [hb] at h
      simp at h
    · rfl
  have htake : line.take 4 = strL "RGB=" := of_decide_eq_true hpre
  refine ⟨?_, ?_, hpre⟩
  · intro he
    rw [he] at htake
    exact absurd htake (by decide)
  · intro he
    rw [he] at htake
    exact absurd htake (by decide)

/-- Clamping via `constrain a 0 255` lands in `[0, 255]`. -/
lemma constrain_bounds (a : Int) :
    0 ≤ constrain a 0 255 ∧ constrain a 0 255 ≤ 255 := by
  unfold constrain
  split_ifs <;> omega

/-- C6: when the three integer fields of an `RGB=` command parse, each
channel is clamped into `[0, 255]` regardless of magnitude or sign, the
clamped triple is written to the three-channel output, and `ACK=RGB,r,g,b`
echoes the clamped values. -/
theorem rgb_clamped (s : DeviceState) (line : List Char) (r g b : Int)
    (h : scanRGB line = some (r, g, b)) :
    handleCommand s line =
      (s, [Effect.setRgbOut (constrain r 0 255) (constrain g 0 255) (constrain b 0 255),
           Effect.ackRgb (constrain r 0 255) (constrain g 0 255) (constrain b 0 255)]) ∧
      (0 ≤ constrain r 0 255 ∧ constrain r 0 255 ≤ 255) ∧
      (0 ≤ constrain g 0 255 ∧ constrain g 0 255 ≤ 255) ∧
      (0 ≤ constrain b 0 255 ∧ constrain b 0 255 ≤ 255) := by
  obtain ⟨hne1, hne2, hpre⟩ := rgb_prefix_facts line (r, g, b) h
  refine ⟨?_, constrain_bounds r, constrain_bounds g, constrain_bounds b⟩
  simp +zeta only [handleCommand, if_neg hne1, if_neg hne2, hpre, if_true, h]

/-- Witness for C6: `RGB=300,-10,128` is clamped to `ACK=RGB,255,0,128`. -/
theorem rgb_clamped_witness :
    scanRGB (strL "RGB=300,-10,128") = some (300, -10, 128) ∧
      handleCommand initState (strL "RGB=300,-10,128") =
        (initState, [Effect.setRgbOut 255 0 128, Effect.ackRgb 255 0 128]) := by
  have h := (rgb_clamped initState (strL "RGB=300,-10,128") 300 (-10) 128
    (by decide)).1
  exact ⟨by decide, h.trans (by decide)⟩

/-- C10: a `GOTO` line whose coordinate substring has a first comma at a
positive index and a later last comma is accepted whether or not the three
segments are numeric — unparseable segments convert to 0 — so
`GOTO=a,b,c` sets the target to `(0,0,0)` and replies `ACK=TARGET_SET`,
not `ERR=BAD_GOTO`. -/
theorem goto_nonnumeric_accepted (s : DeviceState) (line : List Char)
    (hpre : startsW (strL "GOTO=") line = true)
    (h1 : firstIdx ',' (line.drop 5) > 0)
    (h2 : lastIdx ',' (line.drop 5) > firstIdx ',' (line.drop 5)) :
    ((handleCommand s line).1.hasTarget = true ∧
      (handleCommand s line).1.targetReached = false ∧
      (handleCommand s line).2 =
        [Effect.ackTargetSet (handleCommand s line).1.target_x
          (handleCommand s line).1.target_y (handleCommand s line).1.target_z]) ∧
    ((handleCommand s (strL "GOTO=a,b,c")).1.target_x = 0 ∧
      (handleCommand s (strL "GOTO=a,b,c")).1.target_y = 0 ∧
      (handleCommand s (strL "GOTO=a,b,c")).1.target_z = 0 ∧
      (handleCommand s (strL "GOTO=a,b,c")).1.hasTarget = true ∧
      (handleCommand s (strL "GOTO=a,b,c")).2 = [Effect.ackTargetSet 0 0 0]) := by
  have hc := handleCommand_goto_accept s (strL "GOTO=a,b,c") (by decide)
    (by decide) (by decide)
  have ha : atofQ (((strL "GOTO=a,b,c").drop 5).take
      (firstIdx ',' ((strL "GOTO=a,b,c").drop 5)).toNat) = 0 := by decide
  have hb : atofQ ((((strL "GOTO=a,b,c").drop 5).take
      (lastIdx ',' ((strL "GOTO=a,b,c").drop 5)).toNat).drop
      ((firstIdx ',' ((strL "GOTO=a,b,c").drop 5)).toNat + 1)) = 0 := by decide
  have hz : atofQ (((strL "GOTO=a,b,c").drop 5).drop
      ((lastIdx ',' ((strL "GOTO=a,b,c").drop 5)).toNat + 1)) = 0 := by decide
  have hval : handleCommand s (strL "GOTO=a,b,c") =
      ({ s with target_x := 0, target_y := 0, target_z := 0, hasTarget := true, targetReached := false },
       [Effect.ackTargetSet 0 0 0]) := by
    rw [hc, ha, hb, hz]
  rw [handleCommand_goto_accept s line hpre h1 h2]
  exact ⟨⟨rfl, rfl, rfl⟩, by rw [hval], by rw [hval], by rw [hval],
    by rw [hval], by rw [hval]⟩

/-- Witness for C10: the theorem applied at the boot state and the literal
line `GOTO=a,b,c`. -/
theorem goto_nonnumeric_accepted_witness :
    (handleCommand initState (strL "GOTO=a,b,c")).1.hasTarget = true ∧
      (handleCommand initState (strL "GOTO=a,b,c")).2 =
        [Effect.ackTargetSet 0 0 0] := by
  have h := goto_nonnumeric_accepted initState (strL "GOTO=a,b,c") (by decide)
    (by decide) (by decide)
  exact ⟨h.1.1, h.2.2.2.2.2⟩

/-- Counterexample to C2 as stated: an accepted `GOTO` issued while already
Navigating (re-anchor flag down) does not signal the integrator to re-anchor
— `firstCall` stays `false` — and the very next angular-rate sample is
integrated into position (`pos_x` moves from 0 to 1), not merely consumed to
re-anchor the timer. -/
theorem goto_no_reanchor_cex :
    ((handleCommand { initState with hasTarget := true, firstCall := false }
        (strL "GOTO=a,b,c")).1.firstCall = false) ∧
    ((handleCommand { initState with hasTarget := true, firstCall := false }
        (strL "GOTO=a,b,c")).1.pos_x = 0) ∧
    (updatePosition (fun _ => 0) (fun _ => 1) (fun _ => 2)
        (handleCommand { initState with hasTarget := true, firstCall := false }
          (strL "GOTO=a,b,c")).1 1000000 0 (some (0, 0, 0))).1.pos_x = 1 := by
  have h1 : (handleCommand { initState with hasTarget := true, firstCall := false }
      (strL "GOTO=a,b,c")).1 =
      { initState with hasTarget := true, firstCall := false, target_x := 0, target_y := 0, target_z := 0 } := by
    decide
  refine ⟨by decide, by decide, ?_⟩
  rw [h1]
  unfold updatePosition
  norm_num [u32sub, absC, GYRO_DEADBAND, SPEED, TARGET_THRESHOLD,
    distanceToTarget, initState]

/-- C2 (amended): an accepted `GOTO` stores the target, marks it present
and clears the reached flag, but does not itself signal the integrator to
re-anchor — `firstCall` is left exactly as it was.  The re-anchor flag is
instead true at boot and re-armed on every Reached tick, and whenever it is
up, the next `updatePosition` call in the Navigating state consumes its
tick only to re-anchor the timer (no position or orientation change) and
lowers the flag. -/
theorem setTarget_reanchor (s s' : DeviceState) (line : List Char)
    (sinQ cosQ sqrtQ : ℚ → ℚ) (now_us now_ms : Nat) (gyro : Option (ℚ × ℚ × ℚ))
    (hpre : startsW (strL "GOTO=") line = true)
    (h1 : firstIdx ',' (line.drop 5) > 0)
    (h2 : lastIdx ',' (line.drop 5) > firstIdx ',' (line.drop 5)) :
    ((handleCommand s line).1.hasTarget = true ∧
      (handleCommand s line).1.targetReached = false ∧
      (handleCommand s line).1.firstCall = s.firstCall) ∧
    (s'.firstCall = true → s'.hasTarget = true → s'.targetReached = false →
      updatePosition sinQ cosQ sqrtQ s' now_us now_ms gyro =
        ({ s' with lastGyroUpdate := now_us % 2 ^ 32, firstCall := false }, [])) := by
  constructor
  · rw [handleCommand_goto_accept s line hpre h1 h2]
    exact ⟨rfl, rfl, rfl⟩
  · intro hf hh hr
    simp [updatePosition, hf, hh, hr]

/-- Witness for C2 (amended): `GOTO=a,b,c` at boot leaves the flag as it
was, and a navigating state with the flag up only re-anchors. -/
theorem setTarget_reanchor_witness :
    (handleCommand initState (strL "GOTO=a,b,c")).1.firstCall =
        initState.firstCall ∧
      updatePosition id id id { initState with hasTarget := true } 5 6 none =
        ({ initState with hasTarget := true, lastGyroUpdate := 5 % 2 ^ 32, firstCall := false }, []) := by
  have h := setTarget_reanchor initState { initState with hasTarget := true }
    (strL "GOTO=a,b,c") id id id 5 6 none (by decide) (by decide) (by decide)
  exact ⟨h.1.2.2, (h.2 rfl rfl rfl).trans (by decide)⟩

